import Mathlib

/-!
Shallow embedding of the two source files of this repository:

* the server-side storage facade over an S3-compatible bucket
  (`uploadFile`, `downloadFile`, `deleteFile`, `deleteFiles`,
  `getFileMetadata`, `fileExists`, `getFileSize`, `generateSignedUrl`), and
* the browser-side notification helper
  (`showNotification`, `setLoading`, `fetchWithFeedback`).

Remote SDK calls are modelled by oracle functions passed as parameters; every
facade operation additionally returns the log of requests it issued, so that
"no remote call was attempted" is expressible as an empty log.  Wall-clock
values (`new Date().toISOString()`, `Date.now()`) are supplied as parameters.
-/

namespace JsModel

/-- Truthiness test of a possibly-absent JS string (`!x`): `undefined`,
`null` and the empty string are falsy, every other string is truthy. -/
def falsy : Option String → Bool
  | none => true
  | some s => s.isEmpty

/-- Semantics of `a || b` where `a` is a possibly-absent JS string and the
result is used as a string. -/
def jsOr (a : Option String) (b : String) : String :=
  match a with
  | none => b
  | some s => if s.isEmpty then b else s

/-- Semantics of template interpolation of a possibly-absent JS string
(an absent value prints as `undefined`). -/
def jsStr : Option String → String
  | none => "undefined"
  | some s => s

/-- Semantics of `s.includes(pat)` on JS strings. -/
def jsIncludes (s pat : String) : Bool :=
  decide (pat.toList <:+: s.toList)

/-- Reading a field of a JS object literal represented as its entry list in
evaluation order, where a later entry shadows an earlier one with the same
name; this is the observable semantics of object-spread merging such as
`\x7b ...defaults, ...metadata \x7d`. -/
def jsGet : List (String × String) → String → Option String
  | [], _ => none
  | (k, v) :: rest, field =>
    match jsGet rest field with
    | some w => some w
    | none => if k = field then some v else none

end JsModel

namespace R2Storage

open JsModel

/-- Shape of a vendor-SDK failure as observed by the catch blocks of the
source: a JS error carrying a `name` (e.g. `"NoSuchKey"`) and a `message`. -/
structure SdkError where
  name : String
  message : String
  deriving DecidableEq, Repr

/-- Errors raised by the facade.  The source throws plain JS `Error` values;
the constructor records where the throw originated: `validation` for the
explicit input checks performed before any SDK call, `remote` for the
re-raise of a wrapped SDK failure inside a catch block.  The `message` field
is the message actually thrown, including the per-operation prefix the catch
block adds. -/
inductive Err
  | validation (message : String)
  | remote (message : String)
  deriving DecidableEq, Repr

/-- PutObjectCommand payload built by `uploadFile` (the fixed bucket name is
a process-wide constant and is omitted). -/
structure PutRequest where
  key : Option String
  body : List Nat
  contentType : String
  cacheControl : String
  metadata : List (String × String)
  serverSideEncryption : String
  storageClass : String
  deriving DecidableEq

/-- Raw SDK result of a PutObject send; its fields are passed through
untouched by the facade, so one representative field suffices. -/
structure PutResult where
  etag : Option String
  deriving DecidableEq

/-- Options bag of `uploadFile`, with the source's destructuring defaults. -/
structure UploadOptions where
  metadata : List (String × String) := []
  cacheControl : String := "public, max-age=31536000"
  storageClass : String := "STANDARD"
  serverSideEncryption : String := "AES256"
  deriving DecidableEq

/-- Value resolved by a successful `uploadFile` call. -/
structure UploadResult where
  raw : PutResult
  fileSize : Nat
  key : Option String
  contentType : String
  uploadedAt : String
  deriving DecidableEq

/-- Model of `uploadFile(key, fileBuffer, contentType, options = \x7b\x7d)`.
The oracle `remote` stands for `r2Client.send`; the second component of the
result is the log of PUT requests issued.  `now` stands for
`new Date().toISOString()`.  A JS `Buffer` is truthy even when empty, so the
`!fileBuffer` check only catches an absent buffer. -/
def uploadFile (remote : PutRequest → Except SdkError PutResult) (now : String)
    (key : Option String) (fileBuffer : Option (List Nat)) (contentType : String)
    (options : UploadOptions) : Except Err UploadResult × List PutRequest :=
  if falsy key || fileBuffer.isNone then
    (.error (.validation "Upload failed: Key and file buffer are required"), [])
  else
    let body := fileBuffer.getD []
    let defaultMetadata : List (String × String) :=
      [("uploaded-at", now),
       ("file-size", toString body.length),
       ("upload-source", "web-portal")] ++ options.metadata
    let command : PutRequest :=
      { key := key, body := body, contentType := contentType,
        cacheControl := options.cacheControl, metadata := defaultMetadata,
        serverSideEncryption := options.serverSideEncryption,
        storageClass := options.storageClass }
    match remote command with
    | .ok result =>
        (.ok { raw := result, fileSize := body.length, key := key,
               contentType := contentType, uploadedAt := now }, [command])
    | .error e => (.error (.remote ("Upload failed: " ++ e.message)), [command])

/-- Options bag of `downloadFile`, with the source's destructuring defaults. -/
structure DownloadOptions where
  range : Option String := none
  ifNoneMatch : Option String := none
  ifModifiedSince : Option String := none
  responseCacheControl : Option String := none
  responseContentType : Option String := none
  deriving DecidableEq

/-- GetObjectCommand payload built by `downloadFile`; a `none` field models
an optional member not spread into the command. -/
structure GetRequest where
  key : Option String
  range : Option String
  ifNoneMatch : Option String
  ifModifiedSince : Option String
  responseCacheControl : Option String
  responseContentType : Option String
  deriving DecidableEq

/-- Raw SDK result of a GetObject send. -/
structure GetResult where
  body : List Nat
  contentLength : Option Nat
  contentType : Option String
  deriving DecidableEq

/-- Value resolved by a successful `downloadFile` call (the elapsed-time
bookkeeping and large-file logging of the source are wall-clock effects with
no bearing on any claim and are not modelled). -/
structure DownloadResult where
  raw : GetResult
  key : Option String
  downloadedAt : String
  deriving DecidableEq

/-- Model of `downloadFile(key, options = \x7b\x7d)` with the source's
error-name mapping (`NoSuchKey` / `AccessDenied` / catch-all). -/
def downloadFile (remote : GetRequest → Except SdkError GetResult) (now : String)
    (key : Option String) (options : DownloadOptions) :
    Except Err DownloadResult × List GetRequest :=
  if falsy key then
    (.error (.validation "Download failed: Key is required"), [])
  else
    let command : GetRequest :=
      { key := key, range := options.range, ifNoneMatch := options.ifNoneMatch,
        ifModifiedSince := options.ifModifiedSince,
        responseCacheControl := options.responseCacheControl,
        responseContentType := options.responseContentType }
    match remote command with
    | .ok result => (.ok { raw := result, key := key, downloadedAt := now }, [command])
    | .error e =>
        if e.name = "NoSuchKey" then
          (.error (.remote ("File not found: " ++ jsStr key)), [command])
        else if e.name = "AccessDenied" then
          (.error (.remote ("Access denied for file: " ++ jsStr key)), [command])
        else
          (.error (.remote ("Download failed: " ++ e.message)), [command])

/-- DeleteObjectCommand payload built by `deleteFile`. -/
structure DeleteRequest where
  key : Option String
  deriving DecidableEq

/-- Raw SDK result of a DeleteObject send. -/
structure DeleteResult where
  deleteMarker : Option Bool
  deriving DecidableEq

/-- Value resolved by a successful `deleteFile` call. -/
structure DeleteFileResult where
  raw : DeleteResult
  key : Option String
  deletedAt : String
  deriving DecidableEq

/-- Model of `deleteFile(key)`. -/
def deleteFile (remote : DeleteRequest → Except SdkError DeleteResult) (now : String)
    (key : Option String) : Except Err DeleteFileResult × List DeleteRequest :=
  if falsy key then
    (.error (.validation "Delete failed: Key is required"), [])
  else
    match remote { key := key } with
    | .ok result =>
        (.ok { raw := result, key := key, deletedAt := now }, [{ key := key }])
    | .error e => (.error (.remote ("Delete failed: " ++ e.message)), [{ key := key }])

/-- DeleteObjectsCommand payload built by one iteration of the `deleteFiles`
loop: the `Objects` list (one identifier per key of the slice) and the
`Quiet: false` flag. -/
structure DeleteObjectsRequest where
  objects : List String
  quiet : Bool
  deriving DecidableEq

/-- Raw SDK result of a DeleteObjects send: the possibly-absent `Deleted`
array (one entry per successfully deleted object, modelled by its key) and
the possibly-absent `Errors` array (modelled by the error messages). -/
structure DeleteObjectsResult where
  deleted : Option (List String)
  errors : Option (List String)
  deriving DecidableEq

/-- Aggregate value resolved by a successful `deleteFiles` call. -/
structure BatchDeleteResult where
  results : List DeleteObjectsResult
  deletedCount : Nat
  errors : List String
  deletedAt : String
  deriving DecidableEq

/-- Model of the `for (let i = 0; i < keys.length; i += maxBatchSize)` loop
of `deleteFiles`: one DeleteObjects request per consecutive slice of at most
`n` keys, issued sequentially; a failing send escapes to the surrounding
catch.  `fuel` bounds the number of iterations; for `n ≥ 1`, `keys.length`
iterations always suffice, so `deleteFiles` instantiates `fuel` that way. -/
def deleteFilesLoop (remote : DeleteObjectsRequest → Except SdkError DeleteObjectsResult)
    (n : Nat) :
    Nat → List String → Except SdkError (List DeleteObjectsResult) × List DeleteObjectsRequest
  | _, [] => (.ok [], [])
  | 0, _ => (.ok [], [])
  | fuel + 1, k :: ks =>
    let command : DeleteObjectsRequest := { objects := (k :: ks).take n, quiet := false }
    match remote command with
    | .error e => (.error e, [command])
    | .ok result =>
      let rest := deleteFilesLoop remote n fuel ((k :: ks).drop n)
      (rest.1.map (fun rs => result :: rs), command :: rest.2)

/-- Model of `deleteFiles(keys)` (`batchDelete`): validates that the keys
array is present and non-empty, then issues chunked DeleteObjects requests of
at most 1000 identifiers and aggregates the per-chunk outcomes. -/
def deleteFiles (remote : DeleteObjectsRequest → Except SdkError DeleteObjectsResult)
    (now : String) (keys : Option (List String)) :
    Except Err BatchDeleteResult × List DeleteObjectsRequest :=
  match keys with
  | none =>
      (.error (.validation "Batch delete failed: Keys array is required and must not be empty"), [])
  | some ks =>
    if ks.length = 0 then
      (.error (.validation "Batch delete failed: Keys array is required and must not be empty"), [])
    else
      match deleteFilesLoop remote 1000 ks.length ks with
      | (.error e, log) => (.error (.remote ("Batch delete failed: " ++ e.message)), log)
      | (.ok results, log) =>
        (.ok { results := results,
               deletedCount := (results.map (fun r => (r.deleted.map List.length).getD 0)).sum,
               errors := results.foldl (fun acc r => acc ++ r.errors.getD []) [],
               deletedAt := now }, log)

/-- HeadObjectCommand payload built by `getFileMetadata`. -/
structure HeadRequest where
  key : Option String
  deriving DecidableEq

/-- Raw SDK result of a HeadObject send (the fields the facade's callers
read; the rest of the result is passed through untouched). -/
structure HeadResult where
  contentLength : Option Nat
  contentType : Option String
  deriving DecidableEq

/-- Value resolved by `getFileMetadata`: the raw head result (absent in the
not-found case, so that a `ContentLength` read yields `none` there), the key,
the `exists` flag of the source (named `existsFlag`, `exists` being a Lean
keyword) and the query timestamp. -/
structure MetadataResult where
  raw : Option HeadResult
  key : Option String
  existsFlag : Bool
  queriedAt : String
  deriving DecidableEq

/-- Model of `getFileMetadata(key)`: a `NotFound` / `NoSuchKey` SDK failure
is converted into a successful `exists: false` result; any other SDK failure
is wrapped and re-raised. -/
def getFileMetadata (remote : HeadRequest → Except SdkError HeadResult) (now : String)
    (key : Option String) : Except Err MetadataResult × List HeadRequest :=
  if falsy key then
    (.error (.validation "Get metadata failed: Key is required"), [])
  else
    match remote { key := key } with
    | .ok result =>
        (.ok { raw := some result, key := key, existsFlag := true, queriedAt := now },
         [{ key := key }])
    | .error e =>
      if e.name = "NotFound" || e.name = "NoSuchKey" then
        (.ok { raw := none, key := key, existsFlag := false, queriedAt := now },
         [{ key := key }])
      else
        (.error (.remote ("Get metadata failed: " ++ e.message)), [{ key := key }])

/-- Model of `fileExists(key)`: delegates to `getFileMetadata` and converts
any failure into `false`. -/
def fileExists (remote : HeadRequest → Except SdkError HeadResult) (now : String)
    (key : Option String) : Bool × List HeadRequest :=
  match getFileMetadata remote now key with
  | (.ok m, log) => (m.existsFlag, log)
  | (.error _, log) => (false, log)

/-- Model of `getFileSize(key)`: delegates to `getFileMetadata`, reads
`ContentLength` when the object exists, and converts any failure into an
absent size. -/
def getFileSize (remote : HeadRequest → Except SdkError HeadResult) (now : String)
    (key : Option String) : Option Nat × List HeadRequest :=
  match getFileMetadata remote now key with
  | (.ok m, log) =>
      ((if m.existsFlag then m.raw.bind (fun r => r.contentLength) else none), log)
  | (.error _, log) => (none, log)

/-- Command handed to the presigner by `generateSignedUrl`: a GetObject or a
PutObject command carrying the key. -/
inductive SignRequest
  | get (key : Option String)
  | put (key : Option String)
  deriving DecidableEq

/-- Value resolved by a successful `generateSignedUrl` call.  The two
timestamps are kept in epoch milliseconds (`Date.now()` based); their ISO
rendering is not modelled. -/
structure SignedUrlResult where
  url : String
  key : Option String
  operation : String
  expiresIn : Nat
  expiresAt : Nat
  generatedAt : Nat
  deriving DecidableEq

/-- Model of `generateSignedUrl(key, operation = 'getObject', expiresIn =
3600)`.  The oracle `sign` stands for `getSignedUrl(r2Client, command,
\x7b expiresIn \x7d)`; `nowMs` stands for `Date.now()`.  The source's switch
accepts exactly `'getObject'` and `'putObject'`; its default branch throws
before the presigner is invoked.  Note the key itself is never validated. -/
def generateSignedUrl (sign : SignRequest → Except SdkError String) (nowMs : Nat)
    (key : Option String) (operation : String) (expiresIn : Nat) :
    Except Err SignedUrlResult × List SignRequest :=
  if operation = "getObject" then
    match sign (.get key) with
    | .ok signedUrl =>
        (.ok { url := signedUrl, key := key, operation := operation,
               expiresIn := expiresIn, expiresAt := nowMs + expiresIn * 1000,
               generatedAt := nowMs }, [.get key])
    | .error e =>
        (.error (.remote ("Generate signed URL failed: " ++ e.message)), [.get key])
  else if operation = "putObject" then
    match sign (.put key) with
    | .ok signedUrl =>
        (.ok { url := signedUrl, key := key, operation := operation,
               expiresIn := expiresIn, expiresAt := nowMs + expiresIn * 1000,
               generatedAt := nowMs }, [.put key])
    | .error e =>
        (.error (.remote ("Generate signed URL failed: " ++ e.message)), [.put key])
  else
    (.error (.validation ("Generate signed URL failed: Unsupported operation: " ++ operation)), [])

/-- Request sequence produced by the `deleteFiles` loop (its request log,
factored out of `deleteFilesLoop` for reasoning: consecutive slices of at
most `n` keys, each packaged as a non-quiet DeleteObjects request). -/
def chunkReqs (n : Nat) : Nat → List String → List DeleteObjectsRequest
  | _, [] => []
  | 0, _ :: _ => []
  | fuel + 1, k :: ks =>
    { objects := (k :: ks).take n, quiet := false } :: chunkReqs n fuel ((k :: ks).drop n)

/-- Expected per-chunk slice sizes of the `deleteFiles` loop, as a function
of the total key count (specification-side companion used to state what the
chunk lengths are; compare `deleteFilesLoop`). -/
def chunkSizes (n : Nat) : Nat → Nat → List Nat
  | _, 0 => []
  | 0, _ + 1 => []
  | fuel + 1, m + 1 => min n (m + 1) :: chunkSizes n fuel (m + 1 - n)

end R2Storage

namespace DashboardNotifications

open JsModel

/-- Markup installed by `setLoading` on an icon-only busy target. -/
def spinnerIconHTML : String := "<i class=\"fas fa-spinner fa-spin\"></i>"

/-- Markup installed by `setLoading` on a text busy target. -/
def spinnerProcessingHTML : String := "<i class=\"fas fa-spinner fa-spin\"></i> Processing..."

/-- State of a button element as touched by `setLoading`: its markup, its
text, the `disabled` flag, membership of the `btn-loading` class in its class
list, and the two `dataset` entries (a `dataset` read yields `undefined`
before the first write, hence `Option`; once written the value is a string,
possibly empty).  The derived update of `textContent` on an `innerHTML`
write is not modelled: no code path reads `textContent` after a write. -/
structure Button where
  innerHTML : String
  textContent : String
  disabled : Bool
  btnLoading : Bool
  dataOriginalHTML : Option String
  dataOriginalText : Option String
  deriving DecidableEq

/-- Model of `setLoading(button, isLoading)`; a `none` button models the
`null` / `undefined` argument short-circuited by the initial guard. -/
def setLoading (button : Option Button) (isLoading : Bool) : Option Button :=
  match button with
  | none => button
  | some b =>
    let originalHTML := jsOr b.dataOriginalHTML b.innerHTML
    let originalText := jsOr b.dataOriginalText b.textContent
    let b :=
      if falsy b.dataOriginalHTML then
        { b with dataOriginalHTML := some originalHTML,
                 dataOriginalText := some originalText }
      else b
    if isLoading then
      let busyHTML :=
        if jsIncludes b.innerHTML "<i class=\"fas" then spinnerIconHTML
        else spinnerProcessingHTML
      some { b with disabled := true, btnLoading := true, innerHTML := busyHTML }
    else
      some { b with disabled := false, btnLoading := false, innerHTML := originalHTML }

/-- Folding a sequence of `setLoading` toggles over a button, used to state
properties that hold regardless of how often the toggle was applied. -/
def applyToggles (button : Option Button) (ops : List Bool) : Option Button :=
  ops.foldl setLoading button

/-- Notification element as created by `showNotification`: its class string,
the interpolated message and the icon class of the inner markup. -/
structure NotificationElem where
  className : String
  message : String
  iconClass : String
  deriving DecidableEq

/-- Document state touched by the notification helper: whether the keyframe
style element is present, and the elements of class `notification` attached
to the body, in document order.  The style element's CSS text plays no role
in any claim and is not carried. -/
structure Doc where
  styleInjected : Bool
  notifications : List NotificationElem
  deriving DecidableEq

/-- Model of `initNotificationStyles()`. -/
def initNotificationStyles (doc : Doc) : Doc := { doc with styleInjected := true }

/-- Model of `getNotificationIcon(type)` (object lookup with fallback to the
success icon). -/
def getNotificationIcon (ntype : String) : String :=
  if ntype = "success" then "check-circle"
  else if ntype = "error" then "exclamation-triangle"
  else if ntype = "warning" then "exclamation-circle"
  else if ntype = "info" then "info-circle"
  else "check-circle"

/-- Model of `showNotification(message, type = 'success', duration = 5000)`
up to, and not including, its expiry timers: the claims below concern the
document state immediately after the call ("in quick succession"), before
any timer fires, so the `setTimeout` auto-dismiss chain lies outside the
state transition and `duration` is carried but unused.
`document.querySelector('.notification')` returns the first match in
document order, which is then removed; the new element is appended to the
body. -/
def showNotification (doc : Doc) (message : String) (ntype : String)
    (duration : Nat) : Doc × NotificationElem :=
  let _ := duration
  let doc := initNotificationStyles doc
  let doc :=
    match doc.notifications with
    | [] => doc
    | _ :: rest => { doc with notifications := rest }
  let notification : NotificationElem :=
    { className :=
        "notification " ++ (if ntype ≠ "success" then "notification-" ++ ntype else ""),
      message := message,
      iconClass := "fas fa-" ++ getNotificationIcon ntype ++ " notification-icon" }
  ({ doc with notifications := doc.notifications ++ [notification] }, notification)

/-- JS error value as observed by the catch block of `fetchWithFeedback`:
`name` distinguishes `TypeError` (transport failure) from plain `Error`. -/
structure JsError where
  name : String
  message : String
  deriving DecidableEq

/-- JSON envelope expected from application endpoints:
`\x7b success, message?, error? \x7d`. -/
structure Envelope where
  success : Bool
  message : Option String
  error : Option String
  deriving DecidableEq

/-- Combined outcome of `fetch` followed by `response.json()`:
the fetch itself may reject (a `TypeError` for transport failures), the body
may fail to parse, or an envelope arrives together with the `response.ok`
flag. -/
inductive FetchResult
  | fail (e : JsError)
  | jsonFail (ok : Bool) (e : JsError)
  | jsonOk (ok : Bool) (env : Envelope)
  deriving DecidableEq

/-- Full observable outcome of one `fetchWithFeedback` call: the value the
promise settles with, the final document, the final button, and the log of
every notification shown during the call (in order; the document retains
only the last one, since each `showNotification` removes its predecessor). -/
structure FetchTrace where
  result : Except JsError Envelope
  doc : Doc
  button : Option Button
  shown : List NotificationElem

/-- Model of `fetchWithFeedback(url, options, button, successMessage)`.
The network interaction (`fetch` + `response.json()`, including the header
merging, which no claim concerns) is summarised by the `fetchResult` oracle
argument.  Control flow follows the source: the try block classifies the
envelope, throwing on a non-ok / non-success outcome; the catch block adds a
network or generic toast for errors that do not carry the envelope's
`Operation failed` marker; the finally block always clears the button's
loading state. -/
def fetchWithFeedback (fetchResult : FetchResult) (doc : Doc)
    (button : Option Button) (successMessage : String) : FetchTrace :=
  let button := if button.isSome then setLoading button true else button
  let tryOut : Except JsError Envelope × Doc × List NotificationElem :=
    match fetchResult with
    | .fail e => (.error e, doc, [])
    | .jsonFail _ e => (.error e, doc, [])
    | .jsonOk ok env =>
      if ok && env.success then
        if successMessage.isEmpty then (.ok env, doc, [])
        else
          let s := showNotification doc (jsOr env.message successMessage) "success" 5000
          (.ok env, s.1, [s.2])
      else
        let s := showNotification doc
          (jsOr env.error (jsOr env.message "Operation failed")) "error" 5000
        (.error { name := "Error", message := jsOr env.error "Operation failed" },
         s.1, [s.2])
  match tryOut with
  | (.ok env, doc, shown) =>
      { result := .ok env, doc := doc,
        button := if button.isSome then setLoading button false else button,
        shown := shown }
  | (.error e, doc, shown) =>
      let handled : Doc × List NotificationElem :=
        if e.name = "TypeError" && jsIncludes e.message "fetch" then
          let s := showNotification doc
            "Network error. Please check your connection and try again." "error" 5000
          (s.1, shown ++ [s.2])
        else if !(jsIncludes e.message "Operation failed") then
          let s := showNotification doc
            "An unexpected error occurred. Please try again." "error" 5000
          (s.1, shown ++ [s.2])
        else (doc, shown)
      { result := .error e, doc := handled.1,
        button := if button.isSome then setLoading button false else button,
        shown := handled.2 }

/-- Idleness of the (optional) bound button: no `btn-loading` class and not
disabled.  An unbound button has no busy state to speak of. -/
def buttonIdle : Option Button → Prop
  | none => True
  | some b => b.disabled = false ∧ b.btnLoading = false

end DashboardNotifications

namespace Fixtures

open JsModel R2Storage DashboardNotifications

/-- Oracle standing for a PutObject send that is never expected to be
reached in the scenarios below. -/
def putOracle : PutRequest → Except SdkError PutResult :=
  fun _ => .error { name := "InternalError", message := "unreachable" }

/-- Oracle standing for a GetObject send that is never expected to be
reached in the scenarios below. -/
def getOracle : GetRequest → Except SdkError GetResult :=
  fun _ => .error { name := "InternalError", message := "unreachable" }

/-- Oracle standing for a DeleteObject send that is never expected to be
reached in the scenarios below. -/
def delOracle : DeleteRequest → Except SdkError DeleteResult :=
  fun _ => .error { name := "InternalError", message := "unreachable" }

/-- Oracle standing for a DeleteObjects send that deletes every object of
the request successfully. -/
def delAllOk : DeleteObjectsRequest → DeleteObjectsResult :=
  fun c => { deleted := some c.objects, errors := none }

/-- Head oracle distinguishing three upstream situations by key: a missing
object, a flaky transport, and an existing 42-byte object. -/
def headOracle : HeadRequest → Except SdkError HeadResult :=
  fun rq =>
    if rq.key = some "missing" then .error { name := "NotFound", message := "no such object" }
    else if rq.key = some "flaky" then .error { name := "Timeout", message := "socket timeout" }
    else .ok { contentLength := some 42, contentType := some "text/plain" }

/-- Presigner oracle that always signs. -/
def signAlwaysOk : SignRequest → Except SdkError String :=
  fun _ => .ok "https://signed.example"

/-- A batch of 2500 keys. -/
def keys2500 : List String := List.replicate 2500 "k"

/-- A button with ordinary non-empty content and a fresh dataset. -/
def saveButton : Button :=
  { innerHTML := "Save", textContent := "Save", disabled := false,
    btnLoading := false, dataOriginalHTML := none, dataOriginalText := none }

/-- A button whose displayed content is empty. -/
def emptyButton : Button :=
  { innerHTML := "", textContent := "", disabled := false,
    btnLoading := false, dataOriginalHTML := none, dataOriginalText := none }

/-- A clean document. -/
def emptyDoc : Doc := { styleInjected := false, notifications := [] }

/-- An HTTP-200 envelope with `success: false` and `error: "X"`. -/
def envX : Envelope := { success := false, message := none, error := some "X" }

end Fixtures

open JsModel R2Storage DashboardNotifications Fixtures

theorem jsIncludes_refl (s : String) : jsIncludes s s = true :=
  decide_eq_true (List.infix_refl _)

theorem jsGet_cons (k v : String) (rest : List (String × String)) (field : String) :
    jsGet ((k, v) :: rest) field =
      (jsGet rest field).elim (if k = field then some v else none) some := by
  cases h : jsGet rest field <;> simp [jsGet, h]

theorem jsGet_append (a b : List (String × String)) (field : String) :
    jsGet (a ++ b) field = (jsGet b field).elim (jsGet a field) some := by
  induction a with
  | nil =>
    cases h : jsGet b field <;> simp [jsGet, h]
  | cons hd tl ih =>
    obtain ⟨k, v⟩ := hd
    rw [List.cons_append, jsGet_cons, jsGet_cons, ih]
    cases hb : jsGet b field <;> cases ht : jsGet tl field <;> simp

theorem deleteFilesLoop_ok (f : DeleteObjectsRequest → DeleteObjectsResult) (n : Nat) :
    ∀ (fuel : Nat) (ks : List String),
      deleteFilesLoop (fun c => .ok (f c)) n fuel ks =
        (.ok ((chunkReqs n fuel ks).map f), chunkReqs n fuel ks) := by
  intro fuel
  induction fuel with
  | zero => intro ks; cases ks <;> simp [deleteFilesLoop, chunkReqs]
  | succ fuel ih =>
    intro ks
    cases ks with
    | nil => simp [deleteFilesLoop, chunkReqs]
    | cons k ks' => simp [deleteFilesLoop, chunkReqs, ih, Except.map]

theorem chunkReqs_flatten {n : Nat} (hn : 0 < n) :
    ∀ (fuel : Nat) (ks : List String), ks.length ≤ fuel →
      ((chunkReqs n fuel ks).map (fun c => c.objects)).flatten = ks := by
  intro fuel
  induction fuel with
  | zero =>
    intro ks hks
    have : ks = [] := List.length_eq_zero.mp (Nat.le_zero.mp hks)
    subst this
    simp [chunkReqs]
  | succ fuel ih =>
    intro ks hks
    cases ks with
    | nil => simp [chunkReqs]
    | cons k ks' =>
      have hdrop : ((k :: ks').drop n).length ≤ fuel := by
        rw [List.length_drop]
        omega
      simp only [chunkReqs, List.map_cons, List.flatten_cons, ih _ hdrop]
      exact List.take_append_drop n (k :: ks')

theorem chunkReqs_le (n : Nat) :
    ∀ (fuel : Nat) (ks : List String) (c : DeleteObjectsRequest),
      c ∈ chunkReqs n fuel ks → c.objects.length ≤ n := by
  intro fuel
  induction fuel with
  | zero => intro ks c hc; cases ks <;> simp [chunkReqs] at hc
  | succ fuel ih =>
    intro ks c hc
    cases ks with
    | nil => simp [chunkReqs] at hc
    | cons k ks' =>
      simp only [chunkReqs, List.mem_cons] at hc
      cases hc with
      | inl h => subst h; simp [List.length_take]
      | inr h => exact ih _ _ h

theorem chunkReqs_sizes (n : Nat) :
    ∀ (fuel : Nat) (ks : List String),
      (chunkReqs n fuel ks).map (fun c => c.objects.length) = chunkSizes n fuel ks.length := by
  intro fuel
  induction fuel with
  | zero => intro ks; cases ks <;> simp [chunkReqs, chunkSizes]
  | succ fuel ih =>
    intro ks
    cases ks with
    | nil => simp [chunkReqs, chunkSizes]
    | cons k ks' =>
      simp only [chunkReqs, List.map_cons, ih, List.length_cons, chunkSizes,
        List.length_take, List.length_drop]

/-- Claim C1: `deleteFiles` (batchDelete) partitions its key list into
consecutive chunks of at most 1000 keys, issues exactly one DeleteObjects
request per chunk (2500 keys give exactly the sizes 1000, 1000, 500), and
its `deletedCount` is the sum over the issued requests of the per-chunk
count of successful deletions. -/
theorem deleteFiles_chunked_and_counts (f : DeleteObjectsRequest → DeleteObjectsResult)
    (now : String) (keys : List String) (h : keys ≠ []) :
    (((deleteFiles (fun c => .ok (f c)) now (some keys)).2.map
        (fun c => c.objects)).flatten = keys)
    ∧ (∀ c ∈ (deleteFiles (fun c => .ok (f c)) now (some keys)).2, c.objects.length ≤ 1000)
    ∧ (keys.length = 2500 →
        (deleteFiles (fun c => .ok (f c)) now (some keys)).2.map
          (fun c => c.objects.length) = [1000, 1000, 500])
    ∧ ∃ out, (deleteFiles (fun c => .ok (f c)) now (some keys)).1 = .ok out
        ∧ out.deletedCount =
            ((deleteFiles (fun c => .ok (f c)) now (some keys)).2.map
              (fun c => ((f c).deleted.map List.length).getD 0)).sum := by
  have hlen : ¬ keys.length = 0 := by
    simpa using List.length_eq_zero.not.mpr h
  have hloop := deleteFilesLoop_ok f 1000 keys.length keys
  simp only [deleteFiles, hlen, if_false, hloop]
  refine ⟨chunkReqs_flatten (by norm_num) _ _ (Nat.le_refl _),
          fun c hc => chunkReqs_le 1000 _ _ c hc,
          fun h2500 => by rw [chunkReqs_sizes, h2500]; decide,
          _, rfl, ?_⟩
  rw [List.map_map]
  rfl

/-- Witness for C1 at a concrete batch of 2500 keys and an all-successful
delete oracle. -/
theorem deleteFiles_chunked_and_counts_witness :
    (((deleteFiles (fun c => .ok (delAllOk c)) "t" (some keys2500)).2.map
        (fun c => c.objects)).flatten = keys2500)
    ∧ (∀ c ∈ (deleteFiles (fun c => .ok (delAllOk c)) "t" (some keys2500)).2,
        c.objects.length ≤ 1000)
    ∧ ((deleteFiles (fun c => .ok (delAllOk c)) "t" (some keys2500)).2.map
          (fun c => c.objects.length) = [1000, 1000, 500])
    ∧ ∃ out, (deleteFiles (fun c => .ok (delAllOk c)) "t" (some keys2500)).1 = .ok out
        ∧ out.deletedCount =
            ((deleteFiles (fun c => .ok (delAllOk c)) "t" (some keys2500)).2.map
              (fun c => ((delAllOk c).deleted.map List.length).getD 0)).sum := by
  obtain ⟨h1, h2, h3, h4⟩ :=
    deleteFiles_chunked_and_counts delAllOk "t" keys2500 (by
      intro hnil
      have := congrArg List.length hnil
      rw [keys2500, List.length_replicate] at this
      simp at this)
  exact ⟨h1, h2, h3 (by rw [keys2500]; exact List.length_replicate 2500 "k"), h4⟩

/-- Claim C3: for every empty or absent key, upload, download, delete and
getMetadata reject with a validation error, and the rejection happens before
any remote call is attempted (the request log stays empty). -/
theorem facade_rejects_empty_key
    (putO : PutRequest → Except SdkError PutResult)
    (getO : GetRequest → Except SdkError GetResult)
    (delO : DeleteRequest → Except SdkError DeleteResult)
    (headO : HeadRequest → Except SdkError HeadResult)
    (now : String) (key : Option String) (hk : falsy key = true)
    (buf : Option (List Nat)) (ct : String) (uo : UploadOptions)
    (dlo : DownloadOptions) :
    uploadFile putO now key buf ct uo
      = (.error (.validation "Upload failed: Key and file buffer are required"), [])
    ∧ downloadFile getO now key dlo
      = (.error (.validation "Download failed: Key is required"), [])
    ∧ deleteFile delO now key
      = (.error (.validation "Delete failed: Key is required"), [])
    ∧ getFileMetadata headO now key
      = (.error (.validation "Get metadata failed: Key is required"), []) := by
  refine ⟨?_, ?_, ?_, ?_⟩ <;>
    simp [uploadFile, downloadFile, deleteFile, getFileMetadata, hk]

/-- Witness for C3 at the concrete empty key. -/
theorem facade_rejects_empty_key_witness :
    uploadFile putOracle "t" (some "") (some [1, 2]) "text/plain" {}
      = (.error (.validation "Upload failed: Key and file buffer are required"), [])
    ∧ downloadFile getOracle "t" (some "") {}
      = (.error (.validation "Download failed: Key is required"), [])
    ∧ deleteFile delOracle "t" (some "")
      = (.error (.validation "Delete failed: Key is required"), [])
    ∧ getFileMetadata headOracle "t" (some "")
      = (.error (.validation "Get metadata failed: Key is required"), []) :=
  facade_rejects_empty_key putOracle getOracle delOracle headOracle
    "t" (some "") rfl (some [1, 2]) "text/plain" {} {}

/-- Counterexample to claim C2 as stated: two facade operations that take a
key do NOT fail on an empty key.  `generateSignedUrl` performs no key
validation at all — with an empty key it succeeds and hands the presigner a
request (so it proceeds rather than failing) — and `fileExists` /
`getFileSize` swallow the validation failure, resolving to `false` / `none`
instead of failing distinctly. -/
theorem facade_empty_key_claim_false :
    (generateSignedUrl signAlwaysOk 0 (some "") "getObject" 3600).1
      = .ok { url := "https://signed.example", key := some "",
              operation := "getObject", expiresIn := 3600,
              expiresAt := 3600000, generatedAt := 0 }
    ∧ (generateSignedUrl signAlwaysOk 0 (some "") "getObject" 3600).2
      = [SignRequest.get (some "")]
    ∧ fileExists headOracle "t" (some "") = (false, [])
    ∧ getFileSize headOracle "t" (some "") = (none, []) :=
  ⟨rfl, rfl, rfl, rfl⟩

/-- Claim C2 (amended): upload, download, delete and getMetadata fail with a
validation error on an empty or absent key before any remote call;
batchDelete does so when its keys array is absent or empty; `fileExists` and
`getFileSize` swallow that validation failure and resolve to `false` /
`none` without any remote call; and `generateSignedUrl` does not validate
the key — it proceeds to the presigner and succeeds when signing does. -/
theorem facade_empty_key_amended
    (putO : PutRequest → Except SdkError PutResult)
    (getO : GetRequest → Except SdkError GetResult)
    (delO : DeleteRequest → Except SdkError DeleteResult)
    (headO : HeadRequest → Except SdkError HeadResult)
    (dor : DeleteObjectsRequest → Except SdkError DeleteObjectsResult)
    (sign : SignRequest → Except SdkError String)
    (now : String) (key : Option String) (hk : falsy key = true)
    (buf : Option (List Nat)) (ct : String) (uo : UploadOptions)
    (dlo : DownloadOptions)
    (u : String) (hsign : sign (SignRequest.get key) = .ok u)
    (nowMs expiresIn : Nat) :
    uploadFile putO now key buf ct uo
      = (.error (.validation "Upload failed: Key and file buffer are required"), [])
    ∧ downloadFile getO now key dlo
      = (.error (.validation "Download failed: Key is required"), [])
    ∧ deleteFile delO now key
      = (.error (.validation "Delete failed: Key is required"), [])
    ∧ getFileMetadata headO now key
      = (.error (.validation "Get metadata failed: Key is required"), [])
    ∧ deleteFiles dor now none
      = (.error (.validation "Batch delete failed: Keys array is required and must not be empty"), [])
    ∧ deleteFiles dor now (some [])
      = (.error (.validation "Batch delete failed: Keys array is required and must not be empty"), [])
    ∧ fileExists headO now key = (false, [])
    ∧ getFileSize headO now key = (none, [])
    ∧ generateSignedUrl sign nowMs key "getObject" expiresIn
      = (.ok { url := u, key := key, operation := "getObject",
               expiresIn := expiresIn, expiresAt := nowMs + expiresIn * 1000,
               generatedAt := nowMs }, [SignRequest.get key]) := by
  refine ⟨?_, ?_, ?_, ?_, ?_, ?_, ?_, ?_, ?_⟩ <;>
    simp [uploadFile, downloadFile, deleteFile, getFileMetadata, deleteFiles,
      fileExists, getFileSize, generateSignedUrl, hk, hsign]

/-- Witness for the amended C2 at the concrete empty key and a signing
presigner. -/
theorem facade_empty_key_amended_witness :
    uploadFile putOracle "t" (some "") (some [1, 2]) "text/plain" {}
      = (.error (.validation "Upload failed: Key and file buffer are required"), [])
    ∧ downloadFile getOracle "t" (some "") {}
      = (.error (.validation "Download failed: Key is required"), [])
    ∧ deleteFile delOracle "t" (some "")
      = (.error (.validation "Delete failed: Key is required"), [])
    ∧ getFileMetadata headOracle "t" (some "")
      = (.error (.validation "Get metadata failed: Key is required"), [])
    ∧ deleteFiles (fun c => .ok (delAllOk c)) "t" none
      = (.error (.validation "Batch delete failed: Keys array is required and must not be empty"), [])
    ∧ deleteFiles (fun c => .ok (delAllOk c)) "t" (some [])
      = (.error (.validation "Batch delete failed: Keys array is required and must not be empty"), [])
    ∧ fileExists headOracle "t" (some "") = (false, [])
    ∧ getFileSize headOracle "t" (some "") = (none, [])
    ∧ generateSignedUrl signAlwaysOk 0 (some "") "getObject" 3600
      = (.ok { url := "https://signed.example", key := some "",
               operation := "getObject", expiresIn := 3600,
               expiresAt := 3600000, generatedAt := 0 },
         [SignRequest.get (some "")]) :=
  facade_empty_key_amended putOracle getOracle delOracle headOracle
    (fun c => .ok (delAllOk c)) signAlwaysOk "t" (some "") rfl
    (some [1, 2]) "text/plain" {} {} "https://signed.example" rfl 0 3600

/-- Claim C4: `getFileMetadata` on a key missing upstream resolves with
`exists: false` instead of raising; `fileExists` / `getFileSize` derive from
it and never propagate an error — a missing object gives `false` / `none`,
any other upstream failure gives `false` / `none`, a swallowed validation
failure gives `false` / `none`, and an existing object gives `true` and its
`ContentLength`. -/
theorem metadata_exists_size_never_raise
    (headO : HeadRequest → Except SdkError HeadResult) (now : String)
    (k1 k2 k3 : String) (e1 e2 : SdkError) (r : HeadResult)
    (hk1 : k1.isEmpty = false) (hk2 : k2.isEmpty = false) (hk3 : k3.isEmpty = false)
    (h1 : headO { key := some k1 } = .error e1)
    (h1n : e1.name = "NotFound" ∨ e1.name = "NoSuchKey")
    (h2 : headO { key := some k2 } = .error e2)
    (h3 : headO { key := some k3 } = .ok r) :
    (getFileMetadata headO now (some k1)).1
      = .ok { raw := none, key := some k1, existsFlag := false, queriedAt := now }
    ∧ (fileExists headO now (some k1)).1 = false
    ∧ (getFileSize headO now (some k1)).1 = none
    ∧ (fileExists headO now (some k2)).1 = false
    ∧ (getFileSize headO now (some k2)).1 = none
    ∧ (fileExists headO now (some "")).1 = false
    ∧ (getFileSize headO now (some "")).1 = none
    ∧ (fileExists headO now (some k3)).1 = true
    ∧ (getFileSize headO now (some k3)).1 = r.contentLength := by
  have hn1 : (e1.name = "NotFound" || e1.name = "NoSuchKey") = true := by
    rcases h1n with h | h <;> simp [h]
  refine ⟨?_, ?_, ?_, ?_, ?_, ?_, ?_, ?_, ?_⟩
  · simp [getFileMetadata, falsy, hk1, h1, hn1]
  · simp [fileExists, getFileMetadata, falsy, hk1, h1, hn1]
  · simp [getFileSize, getFileMetadata, falsy, hk1, h1, hn1]
  · by_cases hn2 : (e2.name = "NotFound" || e2.name = "NoSuchKey") = true
    · simp [fileExists, getFileMetadata, falsy, hk2, h2, hn2]
    · simp [fileExists, getFileMetadata, falsy, hk2, h2, hn2]
  · by_cases hn2 : (e2.name = "NotFound" || e2.name = "NoSuchKey") = true
    · simp [getFileSize, getFileMetadata, falsy, hk2, h2, hn2]
    · simp [getFileSize, getFileMetadata, falsy, hk2, h2, hn2]
  · have hemp : ("" : String).isEmpty = true := rfl
    simp [fileExists, getFileMetadata, falsy, hemp]
  · have hemp : ("" : String).isEmpty = true := rfl
    simp [getFileSize, getFileMetadata, falsy, hemp]
  · simp [fileExists, getFileMetadata, falsy, hk3, h3]
  · simp [getFileSize, getFileMetadata, falsy, hk3, h3]

/-- Witness for C4 with a concrete head oracle distinguishing a missing key,
a flaky key and a present 42-byte object. -/
theorem metadata_exists_size_never_raise_witness :
    (getFileMetadata headOracle "t" (some "missing")).1
      = .ok { raw := none, key := some "missing", existsFlag := false, queriedAt := "t" }
    ∧ (fileExists headOracle "t" (some "missing")).1 = false
    ∧ (getFileSize headOracle "t" (some "missing")).1 = none
    ∧ (fileExists headOracle "t" (some "flaky")).1 = false
    ∧ (getFileSize headOracle "t" (some "flaky")).1 = none
    ∧ (fileExists headOracle "t" (some "")).1 = false
    ∧ (getFileSize headOracle "t" (some "")).1 = none
    ∧ (fileExists headOracle "t" (some "present")).1 = true
    ∧ (getFileSize headOracle "t" (some "present")).1
        = HeadResult.contentLength { contentLength := some 42, contentType := some "text/plain" } :=
  metadata_exists_size_never_raise headOracle "t" "missing" "flaky" "present"
    { name := "NotFound", message := "no such object" }
    { name := "Timeout", message := "socket timeout" }
    { contentLength := some 42, contentType := some "text/plain" }
    rfl rfl rfl rfl (Or.inl rfl) rfl rfl

/-- Counterexample to claim C5 as stated: the code's operation names are
`'getObject'` / `'putObject'`, not `'read'` / `'write'`, so a call with the
operation value `"write"` does not succeed — it hits the default branch and
raises the unsupported-operation validation error (before the presigner is
ever handed a request). -/
theorem generateSignedUrl_write_claim_false :
    generateSignedUrl signAlwaysOk 0 (some "k") "write" 3600
      = (.error (.validation "Generate signed URL failed: Unsupported operation: write"), []) :=
  rfl

/-- Claim C5 (amended): the supported operation values are `'getObject'` and
`'putObject'` (the code's names for read and write access); with a signing
presigner a `'putObject'` call succeeds, while any other operation value —
`"write"` included — raises a validation error without handing the presigner
any request. -/
theorem generateSignedUrl_operations
    (sign : SignRequest → Except SdkError String) (nowMs : Nat)
    (key : Option String) (expiresIn : Nat) (op : String)
    (hop1 : op ≠ "getObject") (hop2 : op ≠ "putObject")
    (u : String) (hsign : sign (SignRequest.put key) = .ok u) :
    generateSignedUrl sign nowMs key op expiresIn
      = (.error (.validation ("Generate signed URL failed: Unsupported operation: " ++ op)), [])
    ∧ generateSignedUrl sign nowMs key "putObject" expiresIn
      = (.ok { url := u, key := key, operation := "putObject",
               expiresIn := expiresIn, expiresAt := nowMs + expiresIn * 1000,
               generatedAt := nowMs }, [SignRequest.put key]) := by
  constructor
  · simp [generateSignedUrl, hop1, hop2]
  · simp [generateSignedUrl, hsign]

/-- Witness for the amended C5 at the operation value `"write"`. -/
theorem generateSignedUrl_operations_witness :
    generateSignedUrl signAlwaysOk 0 (some "k") "write" 3600
      = (.error (.validation ("Generate signed URL failed: Unsupported operation: " ++ "write")), [])
    ∧ generateSignedUrl signAlwaysOk 0 (some "k") "putObject" 3600
      = (.ok { url := "https://signed.example", key := some "k",
               operation := "putObject", expiresIn := 3600,
               expiresAt := 3600000, generatedAt := 0 }, [SignRequest.put (some "k")]) :=
  generateSignedUrl_operations signAlwaysOk 0 (some "k") 3600 "write"
    (by decide) (by decide) "https://signed.example" rfl

/-- Claim C10: `uploadFile` always attaches the three generated metadata
entries (upload timestamp, payload size, upload source) to the issued PUT
request, with the caller's metadata overriding a colliding default. -/
theorem uploadFile_metadata_defaults_and_override
    (remote : PutRequest → Except SdkError PutResult) (now : String)
    (key : Option String) (buf : List Nat) (ct : String) (uo : UploadOptions)
    (hk : falsy key = false) :
    ∃ command, (uploadFile remote now key (some buf) ct uo).2 = [command]
      ∧ (jsGet uo.metadata "uploaded-at" = none →
          jsGet command.metadata "uploaded-at" = some now)
      ∧ (jsGet uo.metadata "file-size" = none →
          jsGet command.metadata "file-size" = some (toString buf.length))
      ∧ (jsGet uo.metadata "upload-source" = none →
          jsGet command.metadata "upload-source" = some "web-portal")
      ∧ (jsGet command.metadata "uploaded-at").isSome
      ∧ (jsGet command.metadata "file-size").isSome
      ∧ (jsGet command.metadata "upload-source").isSome
      ∧ (∀ name v, jsGet uo.metadata name = some v →
          jsGet command.metadata name = some v) := by
  set md : List (String × String) :=
    [("uploaded-at", now), ("file-size", toString buf.length),
     ("upload-source", "web-portal")] ++ uo.metadata with hmd
  set C : PutRequest :=
    ⟨key, buf, ct, uo.cacheControl, md, uo.serverSideEncryption, uo.storageClass⟩ with hC
  have hlog : (uploadFile remote now key (some buf) ct uo).2 = [C] := by
    simp only [uploadFile, hk, Option.isNone_some, Bool.or_self, Bool.false_or,
      Option.getD_some, Bool.false_eq_true, if_false]
    cases h : remote C <;> simp [hC, hmd]
  have hCmd : C.metadata = md := rfl
  refine ⟨C, hlog, ?_, ?_, ?_, ?_, ?_, ?_, ?_⟩
  · intro hnone
    rw [hCmd, hmd, jsGet_append, hnone]
    rfl
  · intro hnone
    rw [hCmd, hmd, jsGet_append, hnone]
    rfl
  · intro hnone
    rw [hCmd, hmd, jsGet_append, hnone]
    rfl
  · rw [hCmd, hmd, jsGet_append]
    cases h : jsGet uo.metadata "uploaded-at" <;> rfl
  · rw [hCmd, hmd, jsGet_append]
    cases h : jsGet uo.metadata "file-size" <;> rfl
  · rw [hCmd, hmd, jsGet_append]
    cases h : jsGet uo.metadata "upload-source" <;> rfl
  · intro name v hv
    rw [hCmd, hmd, jsGet_append, hv]
    rfl

/-- Witness for C10 at a concrete upload whose caller metadata overrides the
`upload-source` default. -/
theorem uploadFile_metadata_defaults_and_override_witness :
    ∃ command, (uploadFile putOracle "t" (some "k") (some [1, 2, 3]) "text/plain"
        { metadata := [("upload-source", "cli")] }).2 = [command]
      ∧ (jsGet (UploadOptions.metadata { metadata := [("upload-source", "cli")] })
            "uploaded-at" = none →
          jsGet command.metadata "uploaded-at" = some "t")
      ∧ (jsGet (UploadOptions.metadata { metadata := [("upload-source", "cli")] })
            "file-size" = none →
          jsGet command.metadata "file-size" = some (toString ([1, 2, 3] : List Nat).length))
      ∧ (jsGet (UploadOptions.metadata { metadata := [("upload-source", "cli")] })
            "upload-source" = none →
          jsGet command.metadata "upload-source" = some "web-portal")
      ∧ (jsGet command.metadata "uploaded-at").isSome
      ∧ (jsGet command.metadata "file-size").isSome
      ∧ (jsGet command.metadata "upload-source").isSome
      ∧ (∀ name v,
          jsGet (UploadOptions.metadata { metadata := [("upload-source", "cli")] })
              name = some v →
          jsGet command.metadata name = some v) :=
  uploadFile_metadata_defaults_and_override putOracle "t" (some "k") [1, 2, 3]
    "text/plain" { metadata := [("upload-source", "cli")] } rfl


theorem buttonIdle_setLoading_false (ob : Option Button) :
    buttonIdle (setLoading ob false) := by
  cases ob with
  | none => exact trivial
  | some b =>
    by_cases h : falsy b.dataOriginalHTML = true <;>
      simp [setLoading, buttonIdle, h]

theorem setLoading_some_isSome (b : Button) (i : Bool) :
    (setLoading (some b) i).isSome = true := by
  by_cases h : falsy b.dataOriginalHTML = true <;> cases i <;>
    simp [setLoading, h]

theorem buttonIdle_guarded (ob : Option Button) :
    buttonIdle (if ob.isSome then setLoading ob false else ob) := by
  cases ob with
  | none => exact trivial
  | some b =>
    simp only [Option.isSome_some, if_true]
    exact buttonIdle_setLoading_false (some b)

theorem fetchWithFeedback_button (fr : FetchResult) (doc : Doc) (ob : Option Button)
    (sm : String) :
    (fetchWithFeedback fr doc ob sm).button =
      (if (if ob.isSome then setLoading ob true else ob).isSome
       then setLoading (if ob.isSome then setLoading ob true else ob) false
       else (if ob.isSome then setLoading ob true else ob)) := by
  cases fr with
  | fail e =>
    unfold fetchWithFeedback
    by_cases hn : (e.name = "TypeError" && jsIncludes e.message "fetch") = true <;>
      by_cases hm : jsIncludes e.message "Operation failed" = true <;>
        simp [hn, hm]
  | jsonFail ok e =>
    unfold fetchWithFeedback
    by_cases hn : (e.name = "TypeError" && jsIncludes e.message "fetch") = true <;>
      by_cases hm : jsIncludes e.message "Operation failed" = true <;>
        simp [hn, hm]
  | jsonOk ok env =>
    unfold fetchWithFeedback
    by_cases h1 : (ok && env.success) = true
    · by_cases h2 : sm.isEmpty = true <;> simp [h1, h2]
    · have hname : (("Error" : String) = "TypeError") = False := by
        simp
      by_cases hm : jsIncludes (jsOr env.error "Operation failed") "Operation failed" = true <;>
        simp [h1, hname, hm]

theorem buttonIdle_after_fetchWithFeedback (fr : FetchResult) (doc : Doc)
    (ob : Option Button) (sm : String) :
    buttonIdle (fetchWithFeedback fr doc ob sm).button := by
  rw [fetchWithFeedback_button]
  exact buttonIdle_guarded _

/-- Claim C6: when the endpoint answers HTTP-ok with an envelope whose
success flag is false and whose error field is a non-empty "X",
`fetchWithFeedback` shows an error notification whose text contains "X" and
rejects with a failure whose message is "X"; and on every outcome the bound
button's loading state is cleared once the call settles. -/
theorem fetchWithFeedback_envelope_error (doc : Doc) (b : Button) (sm : String)
    (e : String) (he : e.isEmpty = false) (msg : Option String) :
    (∃ n ∈ (fetchWithFeedback (.jsonOk true { success := false, message := msg, error := some e })
        doc (some b) sm).shown,
        n.className = "notification notification-error" ∧ jsIncludes n.message e = true)
    ∧ (fetchWithFeedback (.jsonOk true { success := false, message := msg, error := some e })
        doc (some b) sm).result = .error { name := "Error", message := e }
    ∧ ∀ fr : FetchResult, buttonIdle (fetchWithFeedback fr doc (some b) sm).button := by
  have hmsg : jsOr (some e) (jsOr msg "Operation failed") = e := by simp [jsOr, he]
  have hthrow : jsOr (some e) "Operation failed" = e := by simp [jsOr, he]
  refine ⟨?_, ?_, fun fr => buttonIdle_after_fetchWithFeedback fr doc (some b) sm⟩
  · unfold fetchWithFeedback
    have hname : (("Error" : String) = "TypeError") = False := by simp
    by_cases hm : jsIncludes e "Operation failed" = true <;>
      simp [hmsg, hthrow, hname, hm, showNotification, getNotificationIcon,
        jsIncludes_refl]
  · unfold fetchWithFeedback
    have hname : (("Error" : String) = "TypeError") = False := by simp
    by_cases hm : jsIncludes e "Operation failed" = true <;>
      simp [hmsg, hthrow, hname, hm]

/-- Witness for C6 at a concrete HTTP-200 `success:false` envelope carrying
the error message `"X"` and a bound button. -/
theorem fetchWithFeedback_envelope_error_witness :
    (∃ n ∈ (fetchWithFeedback (.jsonOk true { success := false, message := none, error := some "X" })
        emptyDoc (some saveButton) "").shown,
        n.className = "notification notification-error" ∧ jsIncludes n.message "X" = true)
    ∧ (fetchWithFeedback (.jsonOk true { success := false, message := none, error := some "X" })
        emptyDoc (some saveButton) "").result = .error { name := "Error", message := "X" }
    ∧ ∀ fr : FetchResult,
        buttonIdle (fetchWithFeedback fr emptyDoc (some saveButton) "").button :=
  fetchWithFeedback_envelope_error emptyDoc saveButton "" "X" rfl none

theorem setLoading_keeps_capture (b' : Button) (h : String) (hh : h.isEmpty = false)
    (hcap : b'.dataOriginalHTML = some h) (op : Bool) :
    ∃ b'', setLoading (some b') op = some b'' ∧ b''.dataOriginalHTML = some h := by
  have hz : falsy (some h) = false := by simp [falsy, hh]
  cases op <;> simp [setLoading, hcap, hz]

theorem applyToggles_keeps_capture (h : String) (hh : h.isEmpty = false) :
    ∀ (ops : List Bool) (b' : Button), b'.dataOriginalHTML = some h →
      ∃ b'', applyToggles (some b') ops = some b'' ∧ b''.dataOriginalHTML = some h := by
  intro ops
  induction ops with
  | nil => intro b' hb; exact ⟨b', rfl, hb⟩
  | cons op rest ih =>
    intro b' hb
    obtain ⟨b1, h1, hcap1⟩ := setLoading_keeps_capture b' h hh hb op
    obtain ⟨b2, h2, hcap2⟩ := ih b1 hcap1
    refine ⟨b2, ?_, hcap2⟩
    rw [applyToggles, List.foldl_cons, h1]
    exact h2

/-- Claim C7 (amended): for a target whose displayed content before the
first activation is non-empty, activating the loading state and later
deactivating it restores the content byte-for-byte, regardless of how many
toggles happened in between; a target whose initial content is empty is
excluded (see the counterexample: the captured empty string reads back as
falsy, so deactivation re-captures and restores the busy markup instead). -/
theorem setLoading_restores_content (b : Button) (hfresh : b.dataOriginalHTML = none)
    (h0 : b.innerHTML.isEmpty = false) (ops : List Bool) :
    (applyToggles (some b) (true :: ops ++ [false])).map Button.innerHTML
      = some b.innerHTML := by
  have hstep1 : ∃ b1, setLoading (some b) true = some b1
      ∧ b1.dataOriginalHTML = some b.innerHTML := by
    simp [setLoading, falsy, hfresh, jsOr]
  obtain ⟨b1, hb1, hcap⟩ := hstep1
  obtain ⟨b2, hb2, hcap2⟩ := applyToggles_keeps_capture b.innerHTML h0 ops b1 hcap
  have hchain : applyToggles (some b) (true :: ops ++ [false]) = setLoading (some b2) false := by
    rw [applyToggles, List.cons_append, List.foldl_cons, hb1, List.foldl_append]
    rw [applyToggles] at hb2
    rw [hb2, List.foldl_cons, List.foldl_nil]
  rw [hchain]
  have hfalsy : falsy b2.dataOriginalHTML = false := by rw [hcap2]; simp [falsy, h0]
  simp [setLoading, hfalsy, hcap2, jsOr, h0]

/-- Witness for the amended C7: a "Save" button toggled on three times in a
row, then off once, shows "Save" again. -/
theorem setLoading_restores_content_witness :
    (applyToggles (some saveButton) (true :: [true, true] ++ [false])).map Button.innerHTML
      = some saveButton.innerHTML :=
  setLoading_restores_content saveButton rfl rfl [true, true]

/-- Counterexample to claim C7 as stated: a target whose content before the
first activation is empty is NOT restored byte-for-byte — after one
activation and one deactivation it displays the busy markup, because the
captured empty string is falsy on read-back. -/
theorem setLoading_empty_content_claim_false :
    (applyToggles (some emptyButton) [true, false]).map Button.innerHTML
      = some spinnerProcessingHTML
    ∧ spinnerProcessingHTML ≠ emptyButton.innerHTML := by
  constructor
  · rfl
  · decide

/-- Claim C8: starting from a document holding at most one notification,
calling `showNotification` twice in quick succession (before any timer
fires) leaves exactly one notification element in the document, and it
carries the second call's message. -/
theorem showNotification_replaces (doc : Doc) (m1 t1 : String) (d1 : Nat)
    (m2 t2 : String) (d2 : Nat) (h : doc.notifications.length ≤ 1) :
    ((showNotification (showNotification doc m1 t1 d1).1 m2 t2 d2).1).notifications.length = 1
    ∧ ∀ n ∈ ((showNotification (showNotification doc m1 t1 d1).1 m2 t2 d2).1).notifications,
        n.message = m2 := by
  obtain ⟨st, ns⟩ := doc
  match ns with
  | [] => simp [showNotification, initNotificationStyles]
  | [x] => simp [showNotification, initNotificationStyles]
  | x :: y :: rest => simp at h

/-- Witness for C8 on a clean document. -/
theorem showNotification_replaces_witness :
    ((showNotification (showNotification emptyDoc "first" "success" 5000).1
        "second" "error" 3000).1).notifications.length = 1
    ∧ ∀ n ∈ ((showNotification (showNotification emptyDoc "first" "success" 5000).1
        "second" "error" 3000).1).notifications,
        n.message = "second" :=
  showNotification_replaces emptyDoc "first" "success" 5000 "second" "error" 3000
    (by decide)

/-- Claim C9: `setLoading` on a null/absent target is a total no-op: it
returns without raising and leaves the (absent) target untouched, for both
activation and deactivation. -/
theorem setLoading_null_noop (isLoading : Bool) :
    setLoading none isLoading = none := rfl
